import Mathlib

/-!
Verification of the MCNP Universe & Lattice Wizard core (`mcnp_wizard.py`).

This file gives a shallow embedding of the wizard's data model and algorithms:

* `Dim` / `LatticeSpec` embed the `LatticeSpec` dataclass.  In Python a
  dimension is the implicit union `int | Tuple[int, int]`; here it is the
  tagged variant `Dim.single` / `Dim.range`.  The dataclass discriminates
  contiguous vs. discrete mode on `elements is None`; here that is the
  two constructors `LatticeSpec.contiguous` / `LatticeSpec.discrete`.
  Python integers are `ℤ`.  The dataclass performs no validation at
  construction, and neither does the embedding: any `Dim.range lo hi`
  (also with `lo > hi`) and any element list (also `[]`) is accepted.
* `Node` embeds the `Node` dataclass (the `transform` numpy field, unused
  by every algorithm verified here, is omitted).
* `build_single_path` / `build_union_paths` / `build_tally_path` /
  `check_needs_sd_card` embed `MCNPWizard._build_single_path`,
  `_build_union_paths`, `_build_tally_path` and `_check_needs_sd_card`.
  The wizard keeps the stack and target cell as object attributes; they
  are passed explicitly here.
* `get_hex_neighbor`, `is_selection_contiguous`, `create_lattice_spec`
  and the `VisualLatticeSelector` state with its `step` function embed
  the corresponding parts of `VisualLatticeSelector` (the curses drawing
  code is rendering only and does not touch the selection state).
-/

/-- One lattice index dimension: the Python union `int | Tuple[int, int]`
(`LatticeSpec.i/j/k`). `single n` is the plain `int` form, `range lo hi`
the `(min, max)` tuple form. -/
inductive Dim where
  | single (n : ℤ)
  | range (lo hi : ℤ)
deriving DecidableEq, Repr

/-- The `LatticeSpec` dataclass. `contiguous i j k` is the mode where
`elements is None` and the `i`/`j`/`k` fields are set; `discrete els` is
the mode where the `elements` field holds a list of `(i, j, k)` tuples. -/
inductive LatticeSpec where
  | contiguous (i j k : Dim)
  | discrete (elements : List (ℤ × ℤ × ℤ))
deriving DecidableEq, Repr

namespace LatticeSpec

/-- Embeds `LatticeSpec.is_contiguous`: `self.elements is None`. -/
def is_contiguous : LatticeSpec → Bool
  | .contiguous _ _ _ => true
  | .discrete _ => false

/-- Embeds `LatticeSpec.is_non_contiguous`: `self.elements is not None`. -/
def is_non_contiguous : LatticeSpec → Bool
  | .contiguous _ _ _ => false
  | .discrete _ => true

/-- Embeds `LatticeSpec.format_dimension`: a tuple `(a, b)` formats as `f"{a}:{b}"`,
a plain int as `str(val)`. (A method on the dataclass in Python, but it
never reads `self`.) -/
def format_dimension : Dim → String
  | .range a b => toString a ++ ":" ++ toString b
  | .single n => toString n

/-- Embeds `LatticeSpec.to_mcnp_string`: contiguous mode renders
`f"[{i_str} {j_str} {k_str}]"`; discrete mode renders the first element
plus a `(+n more)` suffix, or `"[empty]"` for an empty element list. -/
def to_mcnp_string : LatticeSpec → String
  | .contiguous i j k =>
      "[" ++ format_dimension i ++ " " ++ format_dimension j ++ " "
          ++ format_dimension k ++ "]"
  | .discrete els =>
      match els with
      | (i, j, k) :: rest =>
          "[" ++ toString i ++ " " ++ toString j ++ " " ++ toString k
              ++ "] (+" ++ toString rest.length ++ " more)"
      | [] => "[empty]"

/-- Embeds `LatticeSpec.to_mcnp_single_index`: `f"[{e[0]} {e[1]} {e[2]}]"`.
(Ignores `self` in Python as well.) -/
def to_mcnp_single_index (element : ℤ × ℤ × ℤ) : String :=
  "[" ++ toString element.1 ++ " " ++ toString element.2.1 ++ " "
      ++ toString element.2.2 ++ "]"

/-- Embeds `LatticeSpec.get_all_elements`: the element list in discrete mode,
`[]` in contiguous mode. -/
def get_all_elements : LatticeSpec → List (ℤ × ℤ × ℤ)
  | .discrete els => els
  | .contiguous _ _ _ => []

/-- Embeds `LatticeSpec.is_single_element`: contiguous mode with all three
dimensions plain ints, or exactly one discrete element. -/
def is_single_element : LatticeSpec → Bool
  | .contiguous (.single _) (.single _) (.single _) => true
  | .contiguous _ _ _ => false
  | .discrete els => els.length == 1

/-- The local `get_size` helper inside `LatticeSpec.element_count`:
`val[1] - val[0] + 1` for a tuple, `1` otherwise. -/
def get_size : Dim → ℤ
  | .range lo hi => hi - lo + 1
  | .single _ => 1

/-- Embeds `LatticeSpec.element_count`: `len(self.elements)` in discrete mode,
the product of the three `get_size` values in contiguous mode. -/
def element_count : LatticeSpec → ℤ
  | .discrete els => els.length
  | .contiguous i j k => get_size i * get_size j * get_size k

end LatticeSpec

/-- The `Node` dataclass: one cell of the containment stack.  Field
defaults in Python are `None`/`False`; the unused `transform` numpy
field is omitted. -/
structure Node where
  cell_id : ℤ
  universe_id : Option ℤ
  fill_id : Option ℤ
  is_lattice : Bool
  is_infinite_lattice : Bool
  lattice_spec : Option LatticeSpec
  lattice_type : Option ℤ
  lattice_bounds : Option ((ℤ × ℤ) × (ℤ × ℤ) × (ℤ × ℤ))
deriving DecidableEq, Repr

/-- Convenience constructor matching the keyword-argument style
`Node(cell_id=…, universe_id=…, fill_id=…, is_lattice=…, lattice_spec=…,
lattice_type=…)` used by the tests and examples; omitted fields default
as in the dataclass. -/
def mkNode (cell_id : ℤ) (universe_id : Option ℤ) (fill_id : Option ℤ)
    (is_lattice : Bool) (lattice_spec : Option LatticeSpec)
    (lattice_type : Option ℤ) : Node :=
  ⟨cell_id, universe_id, fill_id, is_lattice, false, lattice_spec,
   lattice_type, none⟩

/-- The per-node test `node.is_lattice and node.lattice_spec and
node.lattice_spec.is_non_contiguous()` used in `_has_non_contiguous_lattice`
and `_build_union_paths` (a `LatticeSpec` instance is always truthy, so the
middle conjunct is `lattice_spec is not None`). -/
def is_non_contiguous_lattice_node (node : Node) : Bool :=
  node.is_lattice &&
    match node.lattice_spec with
    | some sp => sp.is_non_contiguous
    | none => false

/-- The loop body of `MCNPWizard._build_single_path` for the nodes
`universe_stack[1:]`: a lattice node with a spec appends the single-index
token of `lattice_element` when the spec is non-contiguous and an element
was supplied, the range token when the spec is contiguous, and nothing
otherwise; every other node contributes `str(node.cell_id)`. -/
def node_part (lattice_element : Option (ℤ × ℤ × ℤ)) (node : Node) : String :=
  match node.is_lattice, node.lattice_spec with
  | true, some sp =>
      match sp, lattice_element with
      | .discrete _, some el =>
          toString node.cell_id ++ LatticeSpec.to_mcnp_single_index el
      | .contiguous i j k, _ =>
          toString node.cell_id ++ (LatticeSpec.contiguous i j k).to_mcnp_string
      | .discrete _, none => toString node.cell_id
  | _, _ => toString node.cell_id

/-- Embeds `MCNPWizard._build_single_path`: `parts` starts with
`str(universe_stack[0].cell_id)`, each further node appends its token,
and the parts are joined with `" < "`.  (Python raises `IndexError` on an
empty stack; both call sites guard non-emptiness, and the `[]` case here
is never exercised.) -/
def build_single_path (stack : List Node)
    (lattice_element : Option (ℤ × ℤ × ℤ)) : String :=
  match stack with
  | [] => ""
  | first :: rest =>
      String.intercalate " < "
        (toString first.cell_id :: rest.map (node_part lattice_element))

/-- Embeds `MCNPWizard._build_union_paths`: find the first non-contiguous lattice
node (falling back to `_build_single_path` when none exists), build one
path per element of its spec with that element as override, wrap each as
`f"( {single_path} )"`, join with `" "`, and wrap the whole as
`f"( {union} )"`. -/
def build_union_paths (stack : List Node) : String :=
  match stack.find? is_non_contiguous_lattice_node with
  | none => build_single_path stack none
  | some node =>
      let elements :=
        match node.lattice_spec with
        | some sp => sp.get_all_elements
        | none => []
      let paths := elements.map
        (fun el => "( " ++ build_single_path stack (some el) ++ " )")
      "( " ++ String.intercalate " " paths ++ " )"

/-- Embeds `MCNPWizard._has_non_contiguous_lattice`. -/
def has_non_contiguous_lattice (stack : List Node) : Bool :=
  stack.any is_non_contiguous_lattice_node

/-- Embeds `MCNPWizard._build_tally_path`: `f"( {target_cell} )"` for an empty
stack, `_build_union_paths` when some node has a non-contiguous lattice
spec, else `f"( {single_path} )"`. -/
def build_tally_path (target_cell : ℤ) (stack : List Node) : String :=
  if stack.isEmpty then "( " ++ toString target_cell ++ " )"
  else if has_non_contiguous_lattice stack then build_union_paths stack
  else "( " ++ build_single_path stack none ++ " )"

/-- Embeds `MCNPWizard._check_needs_sd_card`: when the stack has more than one
node, true iff some node of `universe_stack[1:]` has `is_lattice` set. -/
def check_needs_sd_card (stack : List Node) : Bool :=
  if 1 < stack.length then (stack.drop 1).any (fun node => node.is_lattice)
  else false

/-- Hexagonal movement direction (`'E'`, `'W'`, `'NE'`, `'NW'`, `'SE'`,
`'SW'` strings in Python).  The Python fallback branch for an unknown
direction string returns `(i, j)`; the inductive has no such case. -/
inductive HexDir where
  | E | W | NE | NW | SE | SW
deriving DecidableEq, Repr

/-- Embeds `VisualLatticeSelector._get_hex_neighbor`: offset-coordinate hex
neighbors, with `is_odd_row = (j % 2 == 1)` (Lean's `%` on `ℤ` agrees
with Python's for the positive modulus `2`). -/
def get_hex_neighbor (i j : ℤ) (direction : HexDir) : ℤ × ℤ :=
  if j % 2 = 1 then
    match direction with
    | .E => (i + 1, j)
    | .W => (i - 1, j)
    | .NE => (i + 1, j - 1)
    | .NW => (i, j - 1)
    | .SE => (i + 1, j + 1)
    | .SW => (i, j + 1)
  else
    match direction with
    | .E => (i + 1, j)
    | .W => (i - 1, j)
    | .NE => (i, j - 1)
    | .NW => (i - 1, j - 1)
    | .SE => (i, j + 1)
    | .SW => (i - 1, j + 1)

/-- Ascending lexicographic order on `(i, j, k)` triples: the order Python's
`sorted` uses on 3-tuples of ints. -/
def tripLe (a b : ℤ × ℤ × ℤ) : Prop :=
  a.1 < b.1 ∨ (a.1 = b.1 ∧ (a.2.1 < b.2.1 ∨ (a.2.1 = b.2.1 ∧ a.2.2 ≤ b.2.2)))

instance : DecidableRel tripLe := fun a b =>
  inferInstanceAs (Decidable (a.1 < b.1 ∨ (a.1 = b.1 ∧
    (a.2.1 < b.2.1 ∨ (a.2.1 = b.2.1 ∧ a.2.2 ≤ b.2.2)))))

instance : IsTrans (ℤ × ℤ × ℤ) tripLe := ⟨by intro a b c; unfold tripLe; omega⟩

instance : IsTotal (ℤ × ℤ × ℤ) tripLe := ⟨by intro a b; unfold tripLe; omega⟩

instance : IsAntisymm (ℤ × ℤ × ℤ) tripLe := by
  refine ⟨fun a b h1 h2 => ?_⟩
  unfold tripLe at h1 h2
  have h3 : a.1 = b.1 ∧ a.2.1 = b.2.1 ∧ a.2.2 = b.2.2 := by omega
  calc a = (a.1, a.2.1, a.2.2) := rfl
    _ = (b.1, b.2.1, b.2.2) := by rw [h3.1, h3.2.1, h3.2.2]
    _ = b := rfl

/-- Embeds `min(i_vals)` over the selection set: smallest first coordinate. -/
def sel_min_i (s : Finset (ℤ × ℤ × ℤ)) (h : s.Nonempty) : ℤ :=
  (s.image fun c => c.1).min' (h.image _)

/-- Embeds `max(i_vals)` over the selection set. -/
def sel_max_i (s : Finset (ℤ × ℤ × ℤ)) (h : s.Nonempty) : ℤ :=
  (s.image fun c => c.1).max' (h.image _)

/-- Embeds `min(j_vals)` over the selection set. -/
def sel_min_j (s : Finset (ℤ × ℤ × ℤ)) (h : s.Nonempty) : ℤ :=
  (s.image fun c => c.2.1).min' (h.image _)

/-- Embeds `max(j_vals)` over the selection set. -/
def sel_max_j (s : Finset (ℤ × ℤ × ℤ)) (h : s.Nonempty) : ℤ :=
  (s.image fun c => c.2.1).max' (h.image _)

/-- Embeds `min(k_vals)` over the selection set. -/
def sel_min_k (s : Finset (ℤ × ℤ × ℤ)) (h : s.Nonempty) : ℤ :=
  (s.image fun c => c.2.2).min' (h.image _)

/-- Embeds `max(k_vals)` over the selection set. -/
def sel_max_k (s : Finset (ℤ × ℤ × ℤ)) (h : s.Nonempty) : ℤ :=
  (s.image fun c => c.2.2).max' (h.image _)

/-- Embeds `VisualLatticeSelector._is_selection_contiguous`: an empty selection
and a singleton are trivially contiguous; otherwise the bounding-box
volume must equal the selection size and (the double-check loop) every
triple of the box must be selected. -/
def is_selection_contiguous (selected : Finset (ℤ × ℤ × ℤ)) : Bool :=
  if h : selected.Nonempty then
    if selected.card = 1 then true
    else
      if (sel_max_i selected h - sel_min_i selected h + 1)
          * (sel_max_j selected h - sel_min_j selected h + 1)
          * (sel_max_k selected h - sel_min_k selected h + 1)
          = (selected.card : ℤ) then
        decide (∀ i ∈ Finset.Icc (sel_min_i selected h) (sel_max_i selected h),
          ∀ j ∈ Finset.Icc (sel_min_j selected h) (sel_max_j selected h),
            ∀ k ∈ Finset.Icc (sel_min_k selected h) (sel_max_k selected h),
              (i, j, k) ∈ selected)
      else false
  else true

/-- The local `make_spec_dim` helper inside
`VisualLatticeSelector._create_lattice_spec`: a plain int when
`min_val == max_val`, a `(min, max)` tuple otherwise. -/
def make_spec_dim (min_val max_val : ℤ) : Dim :=
  if min_val = max_val then Dim.single min_val else Dim.range min_val max_val

/-- Embeds `VisualLatticeSelector._create_lattice_spec`: `None` for an empty
selection; a range-based spec over the joint bounding box when the
selection is contiguous; otherwise the element-list spec holding
`sorted(list(self.selected))`. -/
def create_lattice_spec (selected : Finset (ℤ × ℤ × ℤ)) : Option LatticeSpec :=
  if h : selected.Nonempty then
    if is_selection_contiguous selected then
      some (.contiguous
        (make_spec_dim (sel_min_i selected h) (sel_max_i selected h))
        (make_spec_dim (sel_min_j selected h) (sel_max_j selected h))
        (make_spec_dim (sel_min_k selected h) (sel_max_k selected h)))
    else
      some (.discrete (selected.sort tripLe))
  else none

/-- The mutable state of `VisualLatticeSelector`: configuration fields
set by `__init__` plus the cursor, current layer and selection set. -/
structure VisualLatticeSelector where
  lattice_type : ℤ
  is_infinite : Bool
  i_bounds : ℤ × ℤ
  j_bounds : ℤ × ℤ
  k_bounds : ℤ × ℤ
  cursor_i : ℤ
  cursor_j : ℤ
  current_k : ℤ
  selected : Finset (ℤ × ℤ × ℤ)
deriving DecidableEq

/-- Embeds `VisualLatticeSelector.__init__`: cursor and layer start at the
middle of each axis (`(lo + hi) // 2`, Python floor division =
`Int.fdiv`), with an empty selection set. -/
def VisualLatticeSelector.init (lattice_type : ℤ)
    (bounds : (ℤ × ℤ) × (ℤ × ℤ) × (ℤ × ℤ)) (is_infinite : Bool) :
    VisualLatticeSelector :=
  { lattice_type := lattice_type
    is_infinite := is_infinite
    i_bounds := bounds.1
    j_bounds := bounds.2.1
    k_bounds := bounds.2.2
    cursor_i := Int.fdiv (bounds.1.1 + bounds.1.2) 2
    cursor_j := Int.fdiv (bounds.2.1.1 + bounds.2.1.2) 2
    current_k := Int.fdiv (bounds.2.2.1 + bounds.2.2.2) 2
    selected := ∅ }

/-- The hexagonal move pattern repeated in `VisualLatticeSelector.run`:
compute the neighbor and move only when it lies inside both the `i` and
`j` bounds (out-of-bounds hex moves are no-ops). -/
def hex_move (s : VisualLatticeSelector) (d : HexDir) : VisualLatticeSelector :=
  if s.i_bounds.1 ≤ (get_hex_neighbor s.cursor_i s.cursor_j d).1 ∧
     (get_hex_neighbor s.cursor_i s.cursor_j d).1 ≤ s.i_bounds.2 ∧
     s.j_bounds.1 ≤ (get_hex_neighbor s.cursor_i s.cursor_j d).2 ∧
     (get_hex_neighbor s.cursor_i s.cursor_j d).2 ≤ s.j_bounds.2 then
    { s with cursor_i := (get_hex_neighbor s.cursor_i s.cursor_j d).1,
             cursor_j := (get_hex_neighbor s.cursor_i s.cursor_j d).2 }
  else s

/-- One key event of the `VisualLatticeSelector.run` loop (the `'d'` and
`'q'`/ESC keys leave the loop and are not state transitions). -/
inductive Key where
  | toggle      -- Enter or Space
  | up | down | left | right   -- arrow keys
  | kE | kW | kX | kZ          -- hex diagonal keys 'e', 'w', 'x', 'z'
  | layer_down | layer_up      -- '[', ',', '<'  /  ']', '.', '>'
  | select_all                 -- 'a'
  | kC                         -- 'c' (clear, rectangular only)
  | kR                         -- 'r' (clear)
deriving DecidableEq, Repr

/-- One iteration of the `VisualLatticeSelector.run` dispatch on the key
read: toggling the cell under the cursor, clamped rectangular moves,
guarded hexagonal moves, clamped layer changes, select-all over the full
bounded volume, and the two clear keys. -/
def VisualLatticeSelector.step (s : VisualLatticeSelector) (key : Key) :
    VisualLatticeSelector :=
  match key with
  | .toggle =>
      let cell := (s.cursor_i, s.cursor_j, s.current_k)
      if cell ∈ s.selected then { s with selected := s.selected.erase cell }
      else { s with selected := insert cell s.selected }
  | .up =>
      if s.lattice_type = 2 then hex_move s .NW
      else { s with cursor_j := max s.j_bounds.1 (s.cursor_j - 1) }
  | .down =>
      if s.lattice_type = 2 then hex_move s .SE
      else { s with cursor_j := min s.j_bounds.2 (s.cursor_j + 1) }
  | .left =>
      if s.lattice_type = 2 then hex_move s .W
      else { s with cursor_i := max s.i_bounds.1 (s.cursor_i - 1) }
  | .right =>
      if s.lattice_type = 2 then hex_move s .E
      else { s with cursor_i := min s.i_bounds.2 (s.cursor_i + 1) }
  | .kE => if s.lattice_type = 2 then hex_move s .NE else s
  | .kW => if s.lattice_type = 2 then hex_move s .NW else s
  | .kX => if s.lattice_type = 2 then hex_move s .SE else s
  | .kZ => if s.lattice_type = 2 then hex_move s .SW else s
  | .layer_down => { s with current_k := max s.k_bounds.1 (s.current_k - 1) }
  | .layer_up => { s with current_k := min s.k_bounds.2 (s.current_k + 1) }
  | .select_all =>
      { s with selected := s.selected ∪
          (Finset.Icc s.i_bounds.1 s.i_bounds.2 ×ˢ
            (Finset.Icc s.j_bounds.1 s.j_bounds.2 ×ˢ
              Finset.Icc s.k_bounds.1 s.k_bounds.2)) }
  | .kC => if s.lattice_type ≠ 2 then { s with selected := ∅ } else s
  | .kR => { s with selected := ∅ }

/-- The cursor/layer bounds invariant of the visual selector. -/
def in_bounds (s : VisualLatticeSelector) : Prop :=
  s.i_bounds.1 ≤ s.cursor_i ∧ s.cursor_i ≤ s.i_bounds.2 ∧
  s.j_bounds.1 ≤ s.cursor_j ∧ s.cursor_j ≤ s.j_bounds.2 ∧
  s.k_bounds.1 ≤ s.current_k ∧ s.current_k ≤ s.k_bounds.2

/-- The claim's per-axis span size (spec §4.1): `max-min+1` for a
`Range`, `1` for a `Single`. Stated separately from the source's
`get_size` so the two can be compared. -/
def span_size : Dim → ℤ
  | .range lo hi => hi - lo + 1
  | .single _ => 1

/-- The target node of spec §8 scenarios A–C: cell 101 in universe 5. -/
def target_node_101 : Node := mkNode 101 (some 5) none false none none

/-- The global node of spec §8 scenarios B/C: cell 1 fills universe 100,
resides in universe 0. -/
def global_node_1 : Node := mkNode 1 (some 0) (some 100) false none none

/-- Scenario B's lattice node: cell 50 fills universe 5, contiguous spec
`i=3, j=4, k=0`. -/
def lattice_node_B : Node :=
  mkNode 50 (some 100) (some 5) true
    (some (.contiguous (.single 3) (.single 4) (.single 0))) none

/-- Scenario B's containment stack. -/
def stack_scenario_B : List Node := [target_node_101, lattice_node_B, global_node_1]

/-- Scenario C's discrete elements, in the order the spec lists them. -/
def corner_elements : List (ℤ × ℤ × ℤ) := [(0, 0, 0), (9, 9, 0), (0, 9, 0), (9, 0, 0)]

/-- Scenario C's lattice node: like B but with the discrete corner spec. -/
def lattice_node_C : Node :=
  mkNode 50 (some 100) (some 5) true (some (.discrete corner_elements)) none

/-- Scenario C's containment stack. -/
def stack_scenario_C : List Node := [target_node_101, lattice_node_C, global_node_1]

/-- A stack whose index-0 (target) node is itself a lattice node with a
contiguous spec — the input separating claim C3's reading from the code. -/
def lattice_target_node : Node :=
  mkNode 7 (some 5) none true
    (some (.contiguous (.single 1) (.single 2) (.single 3))) none

/-- Containment stack with a lattice node at index 0. -/
def stack_lattice_target : List Node :=
  [lattice_target_node, mkNode 1 (some 0) (some 5) false none none]

/-- First of two discrete lattice nodes in the double-discrete stack. -/
def discrete_node_50 : Node :=
  mkNode 50 (some 7) (some 5) true (some (.discrete [(0, 0, 0), (1, 1, 1)])) none

/-- Second discrete lattice node in the double-discrete stack. -/
def discrete_node_60 : Node :=
  mkNode 60 (some 100) (some 7) true (some (.discrete [(5, 5, 5)])) none

/-- A containment stack in which two distinct nodes carry Discrete specs. -/
def stack_two_discrete : List Node :=
  [target_node_101, discrete_node_50, discrete_node_60,
   mkNode 1 (some 0) (some 100) false none none]

/-- The per-node token of claim C3 (spec §4.2 read literally): every
node, including index 0, gets the contiguous range token appended when
it is a lattice node with a (contiguous) spec.  Stated from the claim's
words, to be compared with the source's `node_part`. -/
def spec_token_c3 (node : Node) : String :=
  match node.is_lattice, node.lattice_spec with
  | true, some (.contiguous i j k) =>
      toString node.cell_id ++ (LatticeSpec.contiguous i j k).to_mcnp_string
  | _, _ => toString node.cell_id

/-- Claim C3's rendering, from its words: all node tokens (index 0
included) joined with `" < "` and wrapped in one pair of parentheses. -/
def render_c3_claim (stack : List Node) : String :=
  "( " ++ String.intercalate " < " (stack.map spec_token_c3) ++ " )"

/-- The amended rendering: as `render_c3_claim`, except the index-0 node
always contributes its plain cell identifier (the code never appends a
lattice token to the target node). -/
def render_c3_amended (stack : List Node) : String :=
  match stack with
  | [] => "( " ++ String.intercalate " < " [] ++ " )"
  | first :: rest =>
      "( " ++ String.intercalate " < "
        (toString first.cell_id :: rest.map spec_token_c3) ++ " )"

/-- The bounding-box condition of claim C1, for a nonempty selection:
the box volume equals the selection size and every triple of the box is
selected. -/
def box_condition (s : Finset (ℤ × ℤ × ℤ)) (hs : s.Nonempty) : Prop :=
  (sel_max_i s hs - sel_min_i s hs + 1) * (sel_max_j s hs - sel_min_j s hs + 1)
      * (sel_max_k s hs - sel_min_k s hs + 1) = (s.card : ℤ) ∧
  ∀ i ∈ Finset.Icc (sel_min_i s hs) (sel_max_i s hs),
    ∀ j ∈ Finset.Icc (sel_min_j s hs) (sel_max_j s hs),
      ∀ k ∈ Finset.Icc (sel_min_k s hs) (sel_max_k s hs), (i, j, k) ∈ s

instance (s : Finset (ℤ × ℤ × ℤ)) (hs : s.Nonempty) :
    Decidable (box_condition s hs) := by
  unfold box_condition
  infer_instance

/-- C8: the element count of a contiguous spec is the product of the
three per-axis span sizes, and the element count of a discrete spec is
the number of its elements. -/
theorem element_count_spans :
    (∀ di dj dk : Dim,
      (LatticeSpec.contiguous di dj dk).element_count
        = span_size di * span_size dj * span_size dk) ∧
    (∀ els : List (ℤ × ℤ × ℤ),
      (LatticeSpec.discrete els).element_count = els.length) := by
  constructor
  · intro di dj dk
    cases di <;> cases dj <;> cases dk <;> rfl
  · intro els
    rfl

/-- C5: the six opposite hexagonal direction pairs are mutually inverse
at every integer cursor position (equivalently: for both row parities). -/
theorem hex_neighbor_roundtrip (i j : ℤ) :
    (get_hex_neighbor (get_hex_neighbor i j .E).1 (get_hex_neighbor i j .E).2 .W
        = (i, j)) ∧
    (get_hex_neighbor (get_hex_neighbor i j .W).1 (get_hex_neighbor i j .W).2 .E
        = (i, j)) ∧
    (get_hex_neighbor (get_hex_neighbor i j .NE).1 (get_hex_neighbor i j .NE).2 .SW
        = (i, j)) ∧
    (get_hex_neighbor (get_hex_neighbor i j .SW).1 (get_hex_neighbor i j .SW).2 .NE
        = (i, j)) ∧
    (get_hex_neighbor (get_hex_neighbor i j .NW).1 (get_hex_neighbor i j .NW).2 .SE
        = (i, j)) ∧
    (get_hex_neighbor (get_hex_neighbor i j .SE).1 (get_hex_neighbor i j .SE).2 .NW
        = (i, j)) := by
  rcases Int.emod_two_eq j with h | h
  · have e1 : ¬ (j % 2 = 1) := by omega
    have e2 : (j - 1) % 2 = 1 := by omega
    have e3 : (j + 1) % 2 = 1 := by omega
    refine ⟨?_, ?_, ?_, ?_, ?_, ?_⟩ <;>
      simp [get_hex_neighbor, e1, e2, e3, Prod.ext_iff]
  · have e1 : j % 2 = 1 := h
    have e2 : ¬ ((j - 1) % 2 = 1) := by omega
    have e3 : ¬ ((j + 1) % 2 = 1) := by omega
    refine ⟨?_, ?_, ?_, ?_, ?_, ?_⟩ <;>
      simp [get_hex_neighbor, e1, e2, e3, Prod.ext_iff]

/-- C7: the SD-card check returns true exactly when some node other than
the index-0 target node has the lattice flag set (so in particular it is
false for a stack without lattice nodes, and false when only the target
node is a lattice). -/
theorem check_needs_sd_card_iff (stack : List Node) :
    check_needs_sd_card stack = true
      ↔ ∃ node ∈ stack.drop 1, node.is_lattice = true := by
  unfold check_needs_sd_card
  rcases stack with _ | ⟨n, rest⟩
  · simp
  · rcases rest with _ | ⟨m, rest2⟩
    · simp
    · simp [List.any_eq_true]

/-- C4 counterexample: `LatticeSpec` performs no validation at
construction.  `Range(5, 2)` (min > max) and a discrete spec with zero
elements are both accepted without any `InvalidRange` / `EmptySelection`
failure, producing spec values on which every derived query runs (the
bad range even yields the negative element count `-2`), contrary to the
claim that no spec value is produced. -/
theorem latticespec_construction_unvalidated :
    (LatticeSpec.contiguous (Dim.range 5 2) (Dim.single 0) (Dim.single 0)).element_count
        = -2 ∧
    (LatticeSpec.discrete []).element_count = 0 := by decide

/-- C4 amended: construction is unvalidated — `Range(5, 2)` and a
zero-element discrete spec produce usable spec values with no error —
while finalizing an empty GridSelector selection indeed produces no
spec (`_create_lattice_spec` returns `None`; the `run` loop refuses the
`'d'` key while nothing is selected). -/
theorem c4_construction_and_empty_finalize :
    create_lattice_spec ∅ = none ∧
    (LatticeSpec.contiguous (Dim.range 5 2) (Dim.single 0) (Dim.single 0)).to_mcnp_string
        = "[5:2 0 0]" ∧
    (LatticeSpec.discrete []).to_mcnp_string = "[empty]" := by
  refine ⟨by decide, by decide, rfl⟩

/-- C2 counterexample: on scenario C's stack the code does not return
the claim's exact string — the code wraps each union member as
`"( path )"` (spaces inside the parentheses), the claim exhibits
`"(path)"`. -/
theorem union_path_exact_string_counterexample :
    build_tally_path 101 stack_scenario_C
      ≠ "( (101 < 50[0 0 0] < 1) (101 < 50[9 9 0] < 1) (101 < 50[0 9 0] < 1) (101 < 50[9 0 0] < 1) )" := by
  decide

/-- C2 amended: for a stack holding a node with a Discrete spec,
`_build_tally_path` builds one path per element of the first such spec
(each via `_build_single_path` with the element as override), wraps each
as `"( path )"`, joins them with a single space, and wraps the sequence
in one more `"( … )"` pair. -/
theorem build_tally_path_union_structure (target_cell : ℤ) (stack : List Node)
    (node : Node) (els : List (ℤ × ℤ × ℤ))
    (hfind : stack.find? is_non_contiguous_lattice_node = some node)
    (hspec : node.lattice_spec = some (.discrete els)) :
    build_tally_path target_cell stack
      = "( " ++ String.intercalate " "
          (els.map fun el => "( " ++ build_single_path stack (some el) ++ " )")
          ++ " )" := by
  have hmem := List.mem_of_find?_eq_some hfind
  have hne : stack ≠ [] := by
    intro h
    rw [h] at hmem
    simp at hmem
  have hany : has_non_contiguous_lattice stack = true :=
    List.any_eq_true.mpr ⟨node, hmem, List.find?_some hfind⟩
  unfold build_tally_path
  rw [if_neg (by simp [hne]), if_pos hany]
  unfold build_union_paths
  rw [hfind]
  simp only [hspec, LatticeSpec.get_all_elements]

/-- C2 witness: scenario C evaluated through the amended theorem; the
actual output string (with the code's spacing). -/
theorem build_tally_path_union_structure_witness :
    stack_scenario_C.find? is_non_contiguous_lattice_node = some lattice_node_C ∧
    lattice_node_C.lattice_spec = some (.discrete corner_elements) ∧
    build_tally_path 101 stack_scenario_C
      = "( ( 101 < 50[0 0 0] < 1 ) ( 101 < 50[9 9 0] < 1 ) ( 101 < 50[0 9 0] < 1 ) ( 101 < 50[9 0 0] < 1 ) )" :=
  ⟨rfl, rfl,
    (build_tally_path_union_structure 101 stack_scenario_C lattice_node_C
      corner_elements rfl rfl).trans (by decide)⟩

/-- The index-0 node never receives a lattice token: `node_part` with no
override element agrees with claim C3's per-node token on every node. -/
theorem node_part_none_eq_spec_token (n : Node) :
    node_part none n = spec_token_c3 n := by
  rcases n with ⟨cid, u, f, lat, inf, sp, lt, lb⟩
  rcases lat <;> rcases sp with _ | sp2 <;> try rfl
  rcases sp2 <;> rfl

/-- C3 counterexample: on a stack whose index-0 node is a lattice node
with a contiguous spec, the code emits the plain cell identifier for it
(`"( 7 < 1 )"`), not the claim's per-node rendering
(`"( 7[1 2 3] < 1 )"`). -/
theorem single_path_root_token_counterexample :
    build_tally_path 7 stack_lattice_target = "( 7 < 1 )" ∧
    build_tally_path 7 stack_lattice_target ≠ render_c3_claim stack_lattice_target := by
  constructor <;> decide

/-- C3 amended: for every non-empty stack without Discrete specs,
`_build_tally_path` joins the node tokens with `" < "` inside one pair
of parentheses, where every node from index 1 up contributes its cell
identifier with the contiguous range token appended immediately when it
is a lattice node with a spec — but the index-0 node always contributes
its plain cell identifier. -/
theorem build_tally_path_single_structure (target_cell : ℤ) (stack : List Node)
    (hne : stack ≠ [])
    (hnc : has_non_contiguous_lattice stack = false) :
    build_tally_path target_cell stack = render_c3_amended stack := by
  rcases stack with _ | ⟨first, rest⟩
  · exact absurd rfl hne
  · unfold build_tally_path
    rw [if_neg (by simp), if_neg (by simp [hnc])]
    unfold build_single_path render_c3_amended
    rw [funext node_part_none_eq_spec_token]

/-- C3 witness: scenario B evaluated through the amended theorem,
yielding the claim's particular string `"( 101 < 50[3 4 0] < 1 )"`. -/
theorem build_tally_path_single_structure_witness :
    stack_scenario_B ≠ [] ∧
    has_non_contiguous_lattice stack_scenario_B = false ∧
    build_tally_path 101 stack_scenario_B = "( 101 < 50[3 4 0] < 1 )" :=
  ⟨by decide, by decide,
    (build_tally_path_single_structure 101 stack_scenario_B (by decide)
      (by decide)).trans (by decide)⟩

/-- C6 counterexample: with two Discrete nodes in the stack, the second
one does not contribute its plain cell identifier `60`: the override
element of the first node's spec is appended to it as well
(`60[0 0 0]`, `60[1 1 1]`), contrary to the claim. -/
theorem second_discrete_node_counterexample :
    build_tally_path 101 stack_two_discrete
      = "( ( 101 < 50[0 0 0] < 60[0 0 0] < 1 ) ( 101 < 50[1 1 1] < 60[1 1 1] < 1 ) )" ∧
    build_tally_path 101 stack_two_discrete
      ≠ "( ( 101 < 50[0 0 0] < 60 < 1 ) ( 101 < 50[1 1 1] < 60 < 1 ) )" := by
  constructor <;> decide

/-- C6 amended: with several Discrete nodes, the first in stack order
determines the generated paths (its elements drive the union); the
element sets of the remaining Discrete nodes are ignored, but each such
node contributes its cell identifier with the current override element's
token appended — not its plain cell identifier. -/
theorem union_paths_first_discrete_dominates (stack : List Node) (node : Node)
    (els : List (ℤ × ℤ × ℤ))
    (hfind : stack.find? is_non_contiguous_lattice_node = some node)
    (hspec : node.lattice_spec = some (.discrete els)) :
    build_union_paths stack
      = "( " ++ String.intercalate " "
          (els.map fun el => "( " ++ build_single_path stack (some el) ++ " )")
          ++ " )" ∧
    (∀ (el : ℤ × ℤ × ℤ) (other : Node),
      is_non_contiguous_lattice_node other = true →
        node_part (some el) other
          = toString other.cell_id ++ LatticeSpec.to_mcnp_single_index el) := by
  constructor
  · unfold build_union_paths
    rw [hfind]
    simp only [hspec, LatticeSpec.get_all_elements]
  · intro el other hother
    rcases other with ⟨cid, u, f, lat, inf, sp, lt, lb⟩
    rcases lat
    · simp [is_non_contiguous_lattice_node] at hother
    · rcases sp with _ | sp2
      · simp [is_non_contiguous_lattice_node] at hother
      · rcases sp2
        · simp [is_non_contiguous_lattice_node, LatticeSpec.is_non_contiguous]
            at hother
        · rfl

/-- C6 witness: the double-discrete stack evaluated through the amended
theorem; node 60's token under override `(0,0,0)` is `"60[0 0 0]"`. -/
theorem union_paths_first_discrete_dominates_witness :
    stack_two_discrete.find? is_non_contiguous_lattice_node = some discrete_node_50 ∧
    build_union_paths stack_two_discrete
      = "( ( 101 < 50[0 0 0] < 60[0 0 0] < 1 ) ( 101 < 50[1 1 1] < 60[1 1 1] < 1 ) )" ∧
    node_part (some (0, 0, 0)) discrete_node_60 = "60[0 0 0]" :=
  ⟨rfl,
    ((union_paths_first_discrete_dominates stack_two_discrete discrete_node_50
      [(0, 0, 0), (1, 1, 1)] rfl rfl).1).trans (by decide),
    ((union_paths_first_discrete_dominates stack_two_discrete discrete_node_50
      [(0, 0, 0), (1, 1, 1)] rfl rfl).2 (0, 0, 0) discrete_node_60
      (by decide)).trans (by decide)⟩

/-- The library function `Nat.digitChar` only produces digits, `'a'`–`'f'`, or `'*'` — never a
comma. -/
theorem digitChar_ne_comma (n : ℕ) : Nat.digitChar n ≠ ',' := by
  rcases n with _|_|_|_|_|_|_|_|_|_|_|_|_|_|_|_|n
  case succ =>
    have h : Nat.digitChar (n + 16) = '*' := by
      unfold Nat.digitChar
      repeat rw [if_neg (by omega)]
    rw [h]
    decide
  all_goals decide

/-- No character produced by `Nat.toDigitsCore` is a comma (given a
comma-free accumulator). -/
theorem toDigitsCore_ne_comma (b fuel : ℕ) :
    ∀ (n : ℕ) (acc : List Char), (∀ c ∈ acc, c ≠ ',') →
      ∀ c ∈ Nat.toDigitsCore b fuel n acc, c ≠ ',' := by
  induction fuel with
  | zero =>
    intro n acc hacc c hc
    rw [Nat.toDigitsCore] at hc
    exact hacc c hc
  | succ fuel ih =>
    intro n acc hacc c hc
    rw [Nat.toDigitsCore] at hc
    by_cases h : n / b = 0
    · rw [if_pos h] at hc
      rcases List.mem_cons.mp hc with hc | hc
      · exact hc ▸ digitChar_ne_comma _
      · exact hacc c hc
    · rw [if_neg h] at hc
      refine ih (n / b) ((n % b).digitChar :: acc) ?_ c hc
      intro d hd
      rcases List.mem_cons.mp hd with hd | hd
      · exact hd ▸ digitChar_ne_comma _
      · exact hacc d hd

/-- The decimal rendering of a natural number contains no comma. -/
theorem nat_repr_ne_comma (n : ℕ) : ∀ c ∈ (Nat.repr n).data, c ≠ ',' := by
  intro c hc
  rw [Nat.repr] at hc
  exact toDigitsCore_ne_comma 10 (n + 1) n [] (by simp) c hc

/-- The decimal rendering of an integer contains no comma. -/
theorem int_toString_ne_comma (i : ℤ) : ∀ c ∈ (toString i).data, c ≠ ',' := by
  intro c hc
  cases i with
  | ofNat m => exact nat_repr_ne_comma m c hc
  | negSucc m =>
    have he : toString (Int.negSucc m) = "-" ++ m.succ.repr := rfl
    rw [he, String.data_append] at hc
    rcases List.mem_append.mp hc with h | h
    · have hx : c = '-' := by simpa using h
      subst hx
      decide
    · exact nat_repr_ne_comma _ c h

/-- A formatted dimension (`"n"` or `"a:b"`) contains no comma. -/
theorem format_dimension_ne_comma (d : Dim) :
    ∀ c ∈ (LatticeSpec.format_dimension d).data, c ≠ ',' := by
  intro c hc
  cases d with
  | single n => exact int_toString_ne_comma n c hc
  | range a b =>
    simp only [LatticeSpec.format_dimension, String.data_append] at hc
    rcases List.mem_append.mp hc with h | h
    · rcases List.mem_append.mp h with h2 | h2
      · exact int_toString_ne_comma a c h2
      · have hx : c = ':' := by simpa using h2
        subst hx
        decide
    · exact int_toString_ne_comma b c h

/-- C9: `format_dimension` renders `Single(n)` as the decimal of `n` and
`Range(a,b)` (with `a ≤ b`) as `"a:b"`, and the contiguous range token is
the three formatted dimensions joined by single spaces inside brackets,
with no comma anywhere in the token. -/
theorem format_dimension_grammar :
    (∀ n : ℤ, LatticeSpec.format_dimension (.single n) = toString n) ∧
    (∀ a b : ℤ, a ≤ b →
      LatticeSpec.format_dimension (.range a b)
        = toString a ++ ":" ++ toString b) ∧
    (∀ di dj dk : Dim,
      (LatticeSpec.contiguous di dj dk).to_mcnp_string
          = "[" ++ LatticeSpec.format_dimension di ++ " "
              ++ LatticeSpec.format_dimension dj ++ " "
              ++ LatticeSpec.format_dimension dk ++ "]" ∧
      ∀ c ∈ ((LatticeSpec.contiguous di dj dk).to_mcnp_string).data, c ≠ ',') := by
  refine ⟨fun n => rfl, fun a b _ => rfl, fun di dj dk => ⟨rfl, ?_⟩⟩
  intro c hc
  simp only [LatticeSpec.to_mcnp_string, String.data_append] at hc
  rcases List.mem_append.mp hc with h | h
  · rcases List.mem_append.mp h with h | h
    · rcases List.mem_append.mp h with h | h
      · rcases List.mem_append.mp h with h | h
        · rcases List.mem_append.mp h with h | h
          · rcases List.mem_append.mp h with h | h
            · have hx : c = '[' := by simpa using h
              subst hx
              decide
            · exact format_dimension_ne_comma di c h
          · have hx : c = ' ' := by simpa using h
            subst hx
            decide
        · exact format_dimension_ne_comma dj c h
      · have hx : c = ' ' := by simpa using h
        subst hx
        decide
    · exact format_dimension_ne_comma dk c h
  · have hx : c = ']' := by simpa using h
    subst hx
    decide

/-- C9 witness: the `Range` clause applied at `0 ≤ 3`, evaluated to the
concrete token `"0:3"`. -/
theorem format_dimension_grammar_witness :
    (0 : ℤ) ≤ 3 ∧ LatticeSpec.format_dimension (.range 0 3) = "0:3" :=
  ⟨by decide, (format_dimension_grammar.2.1 0 3 (by decide)).trans (by decide)⟩

/-- On a singleton selection the per-axis minima and maxima are the
coordinates of the one element. -/
theorem sel_bounds_singleton (t : ℤ × ℤ × ℤ)
    (h : ({t} : Finset (ℤ × ℤ × ℤ)).Nonempty) :
    sel_min_i {t} h = t.1 ∧ sel_max_i {t} h = t.1 ∧
    sel_min_j {t} h = t.2.1 ∧ sel_max_j {t} h = t.2.1 ∧
    sel_min_k {t} h = t.2.2 ∧ sel_max_k {t} h = t.2.2 := by
  unfold sel_min_i sel_max_i sel_min_j sel_max_j sel_min_k sel_max_k
  simp [Finset.image_singleton]

/-- A singleton selection always satisfies the bounding-box condition. -/
theorem box_condition_singleton (t : ℤ × ℤ × ℤ)
    (h : ({t} : Finset (ℤ × ℤ × ℤ)).Nonempty) : box_condition {t} h := by
  obtain ⟨e1, e2, e3, e4, e5, e6⟩ := sel_bounds_singleton t h
  constructor
  · rw [e1, e2, e3, e4, e5, e6]
    simp
  · intro i hi j hj k hk
    rw [e1, e2] at hi
    rw [e3, e4] at hj
    rw [e5, e6] at hk
    simp only [Finset.mem_Icc] at hi hj hk
    have hit : i = t.1 := le_antisymm hi.2 hi.1
    have hjt : j = t.2.1 := le_antisymm hj.2 hj.1
    have hkt : k = t.2.2 := le_antisymm hk.2 hk.1
    subst hit hjt hkt
    simp

/-- The contiguity test of the code is exactly the bounding-box condition
of the claim (on nonempty selections). -/
theorem is_selection_contiguous_iff (s : Finset (ℤ × ℤ × ℤ)) (hs : s.Nonempty) :
    is_selection_contiguous s = true ↔ box_condition s hs := by
  constructor
  · intro htrue
    unfold is_selection_contiguous at htrue
    rw [dif_pos hs] at htrue
    by_cases hcard : s.card = 1
    · obtain ⟨t, ht⟩ := Finset.card_eq_one.mp hcard
      subst ht
      exact box_condition_singleton t hs
    · rw [if_neg hcard] at htrue
      by_cases hexp : (sel_max_i s hs - sel_min_i s hs + 1)
          * (sel_max_j s hs - sel_min_j s hs + 1)
          * (sel_max_k s hs - sel_min_k s hs + 1) = (s.card : ℤ)
      · rw [if_pos hexp] at htrue
        exact ⟨hexp, of_decide_eq_true htrue⟩
      · rw [if_neg hexp] at htrue
        simp at htrue
  · intro hcond
    unfold is_selection_contiguous
    rw [dif_pos hs]
    by_cases hcard : s.card = 1
    · rw [if_pos hcard]
    · rw [if_neg hcard, if_pos hcond.1]
      exact decide_eq_true hcond.2

/-- C1: finalization of a nonempty selection is decided by the joint
bounding-box analysis: under the box condition the result is the
contiguous spec with `make_spec_dim` per axis (Single when min = max,
Range otherwise); in all other cases it is the discrete spec holding the
selection sorted in ascending lexicographic order. -/
theorem grid_finalize_characterization (s : Finset (ℤ × ℤ × ℤ))
    (hs : s.Nonempty) :
    create_lattice_spec s =
      if box_condition s hs then
        some (.contiguous
          (make_spec_dim (sel_min_i s hs) (sel_max_i s hs))
          (make_spec_dim (sel_min_j s hs) (sel_max_j s hs))
          (make_spec_dim (sel_min_k s hs) (sel_max_k s hs)))
      else some (.discrete (s.sort tripLe)) := by
  unfold create_lattice_spec
  rw [dif_pos hs]
  by_cases hcond : box_condition s hs
  · rw [if_pos hcond, if_pos ((is_selection_contiguous_iff s hs).mpr hcond)]
  · rw [if_neg hcond,
      if_neg (fun h => hcond ((is_selection_contiguous_iff s hs).mp h))]

/-- The concrete witness selection `{(0,0,0), (1,0,0)}` is nonempty. -/
theorem pair_selection_nonempty :
    ({((0 : ℤ), (0 : ℤ), (0 : ℤ)), (1, 0, 0)} : Finset (ℤ × ℤ × ℤ)).Nonempty := by
  decide

/-- C1 witness: a concrete 2×1×1 box selection finalizes through the
characterization to `Contiguous(Range(0,1), Single(0), Single(0))`. -/
theorem grid_finalize_characterization_witness :
    ({((0 : ℤ), (0 : ℤ), (0 : ℤ)), (1, 0, 0)} : Finset (ℤ × ℤ × ℤ)).Nonempty ∧
    create_lattice_spec {((0 : ℤ), (0 : ℤ), (0 : ℤ)), (1, 0, 0)}
      = some (.contiguous (.range 0 1) (.single 0) (.single 0)) :=
  ⟨pair_selection_nonempty,
    (grid_finalize_characterization _ pair_selection_nonempty).trans (by decide)⟩

/-- Floor-division midpoint: for `a ≤ b`, `(a + b) // 2` lies in `[a, b]`. -/
theorem fdiv_two_between (a b : ℤ) (h : a ≤ b) :
    a ≤ Int.fdiv (a + b) 2 ∧ Int.fdiv (a + b) 2 ≤ b := by
  rw [Int.fdiv_eq_ediv _ (by norm_num)]
  omega

/-- A guarded hexagonal move preserves the cursor/layer bounds. -/
theorem hex_move_preserves (s : VisualLatticeSelector) (d : HexDir)
    (h : in_bounds s) : in_bounds (hex_move s d) := by
  obtain ⟨h1, h2, h3, h4, h5, h6⟩ := h
  unfold hex_move
  split_ifs with hcond
  · exact ⟨hcond.1, hcond.2.1, hcond.2.2.1, hcond.2.2.2, h5, h6⟩
  · exact ⟨h1, h2, h3, h4, h5, h6⟩

/-- Every key event of the selector loop preserves the cursor/layer
bounds: rectangular moves and layer changes clamp, hexagonal moves are
guarded no-ops, and the selection operations never move the cursor. -/
theorem step_preserves_in_bounds (s : VisualLatticeSelector) (key : Key)
    (h : in_bounds s) : in_bounds (s.step key) := by
  obtain ⟨h1, h2, h3, h4, h5, h6⟩ := h
  cases key <;>
    simp only [VisualLatticeSelector.step] <;>
    (try split_ifs) <;>
    (try exact hex_move_preserves _ _ ⟨h1, h2, h3, h4, h5, h6⟩) <;>
    (simp only [in_bounds]; omega)

/-- The bounds invariant is preserved by every key sequence. -/
theorem foldl_step_preserves_in_bounds (keys : List Key)
    (s : VisualLatticeSelector) (h : in_bounds s) :
    in_bounds (keys.foldl VisualLatticeSelector.step s) := by
  induction keys generalizing s with
  | nil => exact h
  | cons k ks ih => exact ih _ (step_preserves_in_bounds s k h)

/-- C10: with `min ≤ max` on each axis, the cursor starts at the floor
midpoints, lies within bounds immediately after initialization, and
stays within bounds after any sequence of selector operations. -/
theorem selector_cursor_invariant (lattice_type : ℤ) (is_infinite : Bool)
    (ib jb kb : ℤ × ℤ) (hi : ib.1 ≤ ib.2) (hj : jb.1 ≤ jb.2)
    (hk : kb.1 ≤ kb.2) (keys : List Key) :
    (VisualLatticeSelector.init lattice_type (ib, jb, kb) is_infinite).cursor_i
        = Int.fdiv (ib.1 + ib.2) 2 ∧
    (VisualLatticeSelector.init lattice_type (ib, jb, kb) is_infinite).cursor_j
        = Int.fdiv (jb.1 + jb.2) 2 ∧
    (VisualLatticeSelector.init lattice_type (ib, jb, kb) is_infinite).current_k
        = Int.fdiv (kb.1 + kb.2) 2 ∧
    in_bounds (VisualLatticeSelector.init lattice_type (ib, jb, kb) is_infinite) ∧
    in_bounds (keys.foldl VisualLatticeSelector.step
      (VisualLatticeSelector.init lattice_type (ib, jb, kb) is_infinite)) := by
  have hin : in_bounds
      (VisualLatticeSelector.init lattice_type (ib, jb, kb) is_infinite) := by
    unfold in_bounds VisualLatticeSelector.init
    dsimp only
    exact ⟨(fdiv_two_between _ _ hi).1, (fdiv_two_between _ _ hi).2,
      (fdiv_two_between _ _ hj).1, (fdiv_two_between _ _ hj).2,
      (fdiv_two_between _ _ hk).1, (fdiv_two_between _ _ hk).2⟩
  exact ⟨rfl, rfl, rfl, hin, foldl_step_preserves_in_bounds keys _ hin⟩

/-- C10 witness: a concrete bounded selector (`i∈[0,4]`, `j∈[0,3]`,
`k∈[0,2]`, rectangular) run through move/toggle/move/layer keys stays in
bounds; the final cursor evaluates to `(1, 0)` on layer `2`. -/
theorem selector_cursor_invariant_witness :
    ((0 : ℤ) ≤ 4) ∧ ((0 : ℤ) ≤ 3) ∧ ((0 : ℤ) ≤ 2) ∧
    in_bounds ([Key.up, Key.toggle, Key.left, Key.layer_up].foldl
      VisualLatticeSelector.step
      (VisualLatticeSelector.init 1 ((0, 4), (0, 3), (0, 2)) false)) ∧
    ([Key.up, Key.toggle, Key.left, Key.layer_up].foldl
      VisualLatticeSelector.step
      (VisualLatticeSelector.init 1 ((0, 4), (0, 3), (0, 2)) false)).cursor_i = 1 ∧
    ([Key.up, Key.toggle, Key.left, Key.layer_up].foldl
      VisualLatticeSelector.step
      (VisualLatticeSelector.init 1 ((0, 4), (0, 3), (0, 2)) false)).cursor_j = 0 ∧
    ([Key.up, Key.toggle, Key.left, Key.layer_up].foldl
      VisualLatticeSelector.step
      (VisualLatticeSelector.init 1 ((0, 4), (0, 3), (0, 2)) false)).current_k = 2 :=
  ⟨by decide, by decide, by decide,
    (selector_cursor_invariant 1 false (0, 4) (0, 3) (0, 2) (by decide)
      (by decide) (by decide) [Key.up, Key.toggle, Key.left, Key.layer_up]).2.2.2.2,
    by decide, by decide, by decide⟩
